import Mathlib

/-!
Verification of the position lifecycle and exit-decision engine of the
Hope_LBot trading bot.  Prices, amounts and timestamps are modelled as
rationals (the JavaScript sources compute with IEEE doubles; every claim
checked here is stated "within floating tolerance", and the arithmetic
involved is exact in ℚ).  Redis hashes holding numeric strings are
modelled with their numeric values (the code converts with toNumber on
every read).
-/

namespace HopeLBot

/- ── Data model: the redis hash `position:<mint>` written by
   PositionManager (riskManager.js).  Close fields default to 0/"" ,
   matching an absent hash field read back through toNumber/|| "". -/

structure PositionRecord where
  mint : String
  symbol : String := ""
  entryPrice : ℚ := 0
  solAmount : ℚ := 0
  tokensAmount : ℚ := 0
  wallet : String := ""
  entry_strategy : String := "copy"
  source : String := "copy_trading"
  strategy : String := ""
  txId : String := ""
  status : String := "open"
  entryTime : ℚ := 0
  maxPrice : ℚ := 0
  lastUpdate : ℚ := 0
  exitPrice : ℚ := 0
  exitSol : ℚ := 0
  pnlSol : ℚ := 0
  pnlPercent : ℚ := 0
  closeReason : String := ""
  closeTxId : String := ""
  closedAt : ℚ := 0
deriving DecidableEq

/- Argument object of PositionManager.openPosition (destructured with
   defaults in the source). -/
structure PositionInput where
  mint : String
  symbol : String := ""
  entryPrice : ℚ := 0
  solAmount : ℚ := 0
  tokensAmount : ℚ := 0
  wallet : String := ""
  entryStrategy : String := "copy"
  source : String := "copy_trading"
  txId : String := ""
deriving DecidableEq

/- closeInfo argument of PositionManager.closePosition; absent object
   properties are `none`. -/
structure CloseInfo where
  exitPrice : Option ℚ := none
  price : Option ℚ := none
  marketPrice : Option ℚ := none
  reason : Option String := none
  txId : Option String := none
deriving DecidableEq

/- The journal entry rpushed onto `trades:<day>` by closePosition. -/
structure TradeRecord where
  mint : String
  symbol : String
  wallet : String
  entry_strategy : String
  source : String
  entryPrice : ℚ
  entrySol : ℚ
  tokensAmount : ℚ
  exitPrice : ℚ
  exitSol : ℚ
  pnlSol : ℚ
  pnlPercent : ℚ
  entryTime : ℚ
  closedAt : ℚ
  closeReason : String
  txIdOpen : String
  txIdClose : String
deriving DecidableEq

/- Redis state touched by PositionManager: per-mint position hashes,
   the `open_positions` set (modelled as a duplicate-free list via
   saddList), and the day-grouped trade journal flattened to one
   append-only list (the day key plays no role in any claim). -/
structure StoreState where
  positions : String → Option PositionRecord
  openIndex : List String
  journal : List TradeRecord

/- redis SADD on the open_positions set. -/
def saddList (l : List String) (m : String) : List String :=
  if m ∈ l then l else l ++ [m]

/- JavaScript `a || b` on strings ("" is falsy). -/
def orElseStr (a b : String) : String :=
  if a = "" then b else a

/- PositionManager.openPosition (riskManager.js 222-264): no check of
   the open-index; unconditionally SADD the mint and HSET the hash.
   HSET merges fields: the close fields of a previous record survive.
   The `extra` spread (stringified passthrough fields) is not modelled.
   The source returns the freshly written `data` object; we return the
   merged stored record, which agrees with `data` on every written
   field. -/
def openPosition (state : StoreState) (pos : PositionInput) (now : ℚ) :
    Except String (StoreState × PositionRecord) :=
  if pos.mint = "" then .error "openPosition requiere mint"
  else
    let old := state.positions pos.mint
    let data : PositionRecord :=
      { mint := pos.mint
        symbol := pos.symbol
        entryPrice := pos.entryPrice
        solAmount := pos.solAmount
        tokensAmount := pos.tokensAmount
        wallet := pos.wallet
        entry_strategy := pos.entryStrategy
        source := pos.source
        txId := pos.txId
        status := "open"
        entryTime := now
        maxPrice := pos.entryPrice
        lastUpdate := now
        strategy := (old.map (·.strategy)).getD ""
        exitPrice := (old.map (·.exitPrice)).getD 0
        exitSol := (old.map (·.exitSol)).getD 0
        pnlSol := (old.map (·.pnlSol)).getD 0
        pnlPercent := (old.map (·.pnlPercent)).getD 0
        closeReason := (old.map (·.closeReason)).getD ""
        closeTxId := (old.map (·.closeTxId)).getD ""
        closedAt := (old.map (·.closedAt)).getD 0 }
    .ok
      ({ positions := fun m => if m = pos.mint then some data else state.positions m
         openIndex := saddList state.openIndex pos.mint
         journal := state.journal },
       data)

/- PositionManager.closePosition (riskManager.js 282-357).  Returns
   null exactly when the hash `position:<mint>` is empty; otherwise
   recomputes the close fields, HSETs them, SREMs the mint from the
   index and rpushes a journal record — regardless of the stored
   status. -/
def closePosition (state : StoreState) (mint : String) (closeInfo : CloseInfo)
    (now : ℚ) : Except String (StoreState × Option TradeRecord) :=
  if mint = "" then .error "closePosition requiere mint"
  else
    match state.positions mint with
    | none => .ok (state, none)
    | some raw =>
      let entryPrice := raw.entryPrice
      let solAmount := raw.solAmount
      let tokensAmount := raw.tokensAmount
      let exitPrice :=
        (((closeInfo.exitPrice).orElse fun _ => closeInfo.price).orElse
          fun _ => closeInfo.marketPrice).getD entryPrice
      let exitSol :=
        if tokensAmount > 0 ∧ exitPrice > 0 then tokensAmount * exitPrice
        else solAmount
      let pnlSol := exitSol - solAmount
      let pnlPercent :=
        if entryPrice > 0 then (exitPrice - entryPrice) / entryPrice * 100 else 0
      let closeReason := orElseStr (closeInfo.reason.getD "") "unknown"
      let closeTxId := closeInfo.txId.getD ""
      let updated : PositionRecord :=
        { raw with
          status := "closed"
          exitPrice := exitPrice
          exitSol := exitSol
          pnlSol := pnlSol
          pnlPercent := pnlPercent
          closeReason := closeReason
          closeTxId := closeTxId
          closedAt := now
          lastUpdate := now }
      let tradeRecord : TradeRecord :=
        { mint := mint
          symbol := raw.symbol
          wallet := raw.wallet
          entry_strategy := orElseStr raw.entry_strategy (orElseStr raw.strategy "unknown")
          source := orElseStr raw.source "unknown"
          entryPrice := entryPrice
          entrySol := solAmount
          tokensAmount := tokensAmount
          exitPrice := exitPrice
          exitSol := exitSol
          pnlSol := pnlSol
          pnlPercent := pnlPercent
          entryTime := raw.entryTime
          closedAt := now
          closeReason := closeReason
          txIdOpen := raw.txId
          txIdClose := closeTxId }
      .ok
        ({ positions := fun m => if m = mint then some updated else state.positions m
           openIndex := state.openIndex.erase mint
           journal := state.journal ++ [tradeRecord] },
         some tradeRecord)

/- Projections used to state concrete facts about Except-typed results. -/

def closeResultTrade (r : Except String (StoreState × Option TradeRecord)) :
    Option TradeRecord :=
  match r with
  | .ok (_, t) => t
  | .error _ => none

def closeResultState (r : Except String (StoreState × Option TradeRecord))
    (fallback : StoreState) : StoreState :=
  match r with
  | .ok (s, _) => s
  | .error _ => fallback

def openResultOk (r : Except String (StoreState × PositionRecord)) : Bool :=
  match r with
  | .ok _ => true
  | .error _ => false

def openResultState (r : Except String (StoreState × PositionRecord))
    (fallback : StoreState) : StoreState :=
  match r with
  | .ok (s, _) => s
  | .error _ => fallback

/- Concrete sample store used by witnesses and counterexamples: one
   open position on mint "A". -/

def sampleRecordA : PositionRecord :=
  { mint := "A"
    symbol := "AAA"
    entryPrice := 1
    solAmount := 5/100
    tokensAmount := 1000
    entry_strategy := "copy"
    source := "copy_trading"
    status := "open"
    entryTime := 1000
    maxPrice := 1
    lastUpdate := 1000 }

def sampleState : StoreState :=
  { positions := fun m => if m = "A" then some sampleRecordA else none
    openIndex := ["A"]
    journal := [] }

def sampleCloseInfo : CloseInfo :=
  { exitPrice := some 2, reason := some "take_profit", txId := some "tx9" }

/- ── ExitPolicy (copyStrategy.js / sniperStrategy.js) ── -/

/- The duck-typed position object as shouldExit reads it; `maxPrice` is
   `none` when the field is absent (parseNumber then falls back to
   entryPrice). -/
structure Position where
  mint : String
  strategy : String := ""
  entry_strategy : String := ""
  entryPrice : ℚ := 0
  entryTime : ℚ := 0
  maxPrice : Option ℚ := none
deriving DecidableEq

/- Strategy configuration (env-derived fields of CopyStrategy /
   SniperStrategy used by shouldExit). -/
structure ExitConfig where
  takeProfitEnabled : Bool := true
  takeProfitPercent : ℚ := 200
  trailingStopEnabled : Bool := true
  trailingStopPercent : ℚ := 35
  stopLossEnabled : Bool := true
  stopLossPercent : ℚ := 25
  maxHoldMinutes : ℚ := 90
deriving DecidableEq

structure ExitDecision where
  exit : Bool
  reason : String
  priority : ℕ := 0
deriving DecidableEq

/- `position.strategy || position.entry_strategy || dflt` -/
def resolvedStrategy (p : Position) (dflt : String) : String :=
  orElseStr p.strategy (orElseStr p.entry_strategy dflt)

/- `((currentPrice - entryPrice) / entryPrice) * 100` -/
def pnlPercentOf (entryPrice currentPrice : ℚ) : ℚ :=
  (currentPrice - entryPrice) / entryPrice * 100

/- `maxPrice > 0 ? ((currentPrice - maxPrice) / maxPrice) * 100 : 0` -/
def drawdownPercentOf (maxPrice currentPrice : ℚ) : ℚ :=
  if maxPrice > 0 then (currentPrice - maxPrice) / maxPrice * 100 else 0

/- CopyStrategy.shouldExit (copyStrategy.js 200-299).  The `description`
   string (log text only) is not modelled; absent `priority` is 0. -/
def copyShouldExit (cfg : ExitConfig) (position : Option Position)
    (currentPrice now : ℚ) : ExitDecision :=
  match position with
  | none => ⟨false, "invalid_position", 0⟩
  | some p =>
    if p.mint = "" ∨ currentPrice = 0 then ⟨false, "invalid_position", 0⟩
    else if resolvedStrategy p "copy" ≠ "copy" then ⟨false, "not_copy_strategy", 0⟩
    else if p.entryPrice ≤ 0 then ⟨false, "no_entry_price", 0⟩
    else if cfg.takeProfitEnabled = true ∧ cfg.takeProfitPercent > 0 ∧
        pnlPercentOf p.entryPrice currentPrice ≥ cfg.takeProfitPercent then
      ⟨true, "take_profit", 3⟩
    else if cfg.trailingStopEnabled = true ∧ cfg.trailingStopPercent > 0 ∧
        drawdownPercentOf (p.maxPrice.getD p.entryPrice) currentPrice ≤
          -cfg.trailingStopPercent then
      ⟨true, "trailing_stop", 3⟩
    else if cfg.stopLossEnabled = true ∧ cfg.stopLossPercent > 0 ∧
        pnlPercentOf p.entryPrice currentPrice ≤ -cfg.stopLossPercent then
      ⟨true, "stop_loss", 4⟩
    else if cfg.maxHoldMinutes > 0 ∧ p.entryTime > 0 ∧
        (now - p.entryTime) / 60000 ≥ cfg.maxHoldMinutes then
      ⟨true, "max_hold_time", 5⟩
    else ⟨false, "hold", 0⟩

/- SniperStrategy.shouldExit (sniperStrategy.js 186-283): identical
   numeric logic, with the sniper strategy guard. -/
def sniperShouldExit (cfg : ExitConfig) (position : Option Position)
    (currentPrice now : ℚ) : ExitDecision :=
  match position with
  | none => ⟨false, "invalid_position", 0⟩
  | some p =>
    if p.mint = "" ∨ currentPrice = 0 then ⟨false, "invalid_position", 0⟩
    else if resolvedStrategy p "sniper" ≠ "sniper" then ⟨false, "not_sniper_strategy", 0⟩
    else if p.entryPrice ≤ 0 then ⟨false, "no_entry_price", 0⟩
    else if cfg.takeProfitEnabled = true ∧ cfg.takeProfitPercent > 0 ∧
        pnlPercentOf p.entryPrice currentPrice ≥ cfg.takeProfitPercent then
      ⟨true, "take_profit", 3⟩
    else if cfg.trailingStopEnabled = true ∧ cfg.trailingStopPercent > 0 ∧
        drawdownPercentOf (p.maxPrice.getD p.entryPrice) currentPrice ≤
          -cfg.trailingStopPercent then
      ⟨true, "trailing_stop", 3⟩
    else if cfg.stopLossEnabled = true ∧ cfg.stopLossPercent > 0 ∧
        pnlPercentOf p.entryPrice currentPrice ≤ -cfg.stopLossPercent then
      ⟨true, "stop_loss", 4⟩
    else if cfg.maxHoldMinutes > 0 ∧ p.entryTime > 0 ∧
        (now - p.entryTime) / 60000 ≥ cfg.maxHoldMinutes then
      ⟨true, "max_hold_time", 5⟩
    else ⟨false, "hold", 0⟩

/- Spec-side rendering of §4.4 for the refinement claim C4: the four
   checks as an ordered list, first match wins, else hold.  Written
   from the spec's words, to be compared with the source definitions
   above. -/

def specCheckTakeProfit (cfg : ExitConfig) (pnlPercent : ℚ) : Option ExitDecision :=
  if cfg.takeProfitEnabled = true ∧ cfg.takeProfitPercent > 0 ∧
      pnlPercent ≥ cfg.takeProfitPercent then some ⟨true, "take_profit", 3⟩
  else none

def specCheckTrailingStop (cfg : ExitConfig) (drawdownPercent : ℚ) : Option ExitDecision :=
  if cfg.trailingStopEnabled = true ∧ cfg.trailingStopPercent > 0 ∧
      drawdownPercent ≤ -cfg.trailingStopPercent then some ⟨true, "trailing_stop", 3⟩
  else none

def specCheckStopLoss (cfg : ExitConfig) (pnlPercent : ℚ) : Option ExitDecision :=
  if cfg.stopLossEnabled = true ∧ cfg.stopLossPercent > 0 ∧
      pnlPercent ≤ -cfg.stopLossPercent then some ⟨true, "stop_loss", 4⟩
  else none

def specCheckMaxHold (cfg : ExitConfig) (entryTime now : ℚ) : Option ExitDecision :=
  if cfg.maxHoldMinutes > 0 ∧ entryTime > 0 ∧
      (now - entryTime) / 60000 ≥ cfg.maxHoldMinutes then some ⟨true, "max_hold_time", 5⟩
  else none

/- Sequential evaluation, early return, one reason per decision. -/
def specOrderedExit (cfg : ExitConfig) (p : Position) (currentPrice now : ℚ) :
    ExitDecision :=
  (([specCheckTakeProfit cfg (pnlPercentOf p.entryPrice currentPrice),
     specCheckTrailingStop cfg
       (drawdownPercentOf (p.maxPrice.getD p.entryPrice) currentPrice),
     specCheckStopLoss cfg (pnlPercentOf p.entryPrice currentPrice),
     specCheckMaxHold cfg p.entryTime now]).findSome? id).getD
    ⟨false, "hold", 0⟩

/- ── Hybrid phased override (copyMonitor.js 134-211) ── -/

def WALLET_EXIT_WINDOW : ℚ := 180000
def LOSS_PROTECTION_WINDOW : ℚ := 600000
def INDEPENDENT_MODE_TIME : ℚ := 600000

structure WalletSellCheck where
  sold : Bool
  timestamp : ℚ := 0
deriving DecidableEq

structure HybridDecision where
  shouldExit : Bool
  phase : String
  reason : String := ""
  priority : ℕ := 0
deriving DecidableEq

/- evaluateHybridExit, with the wallet-sell lookup (network I/O)
   abstracted to its result `walletSellCheck`. -/
def evaluateHybridExit (entryTime : ℚ) (walletSellCheck : WalletSellCheck)
    (pnlPercent now : ℚ) : HybridDecision :=
  let holdTime := now - entryTime
  if walletSellCheck.sold = false then ⟨false, "none", "", 0⟩
  else
    let sellTime := walletSellCheck.timestamp
    if sellTime < entryTime then ⟨false, "none", "", 0⟩
    else if holdTime < WALLET_EXIT_WINDOW then
      ⟨true, "phase1", "wallet_exit_early", 2⟩
    else if holdTime ≥ WALLET_EXIT_WINDOW ∧ holdTime < LOSS_PROTECTION_WINDOW then
      if pnlPercent < 0 then ⟨true, "phase2", "wallet_exit_loss_protection", 2⟩
      else ⟨false, "phase2_holding", "", 0⟩
    else if holdTime ≥ INDEPENDENT_MODE_TIME then
      ⟨false, "phase3_independent", "", 0⟩
    else ⟨false, "unknown", "", 0⟩

/- The exit-decision chain of one monitorOpenPositions iteration
   (copyMonitor.js 490-550): force_exit flag, then the hybrid override,
   then the generic CopyStrategy.shouldExit; the first that fires
   supplies the sell reason. -/
def monitorExitReason (forceExit : Option String) (hybrid : HybridDecision)
    (generic : ExitDecision) : Option String :=
  match forceExit with
  | some flag => some flag
  | none =>
    if hybrid.shouldExit = true then some hybrid.reason
    else if generic.exit = true then some generic.reason
    else none

/- ── Momentum (candleAnalyzer.js) ── -/

/- CANDLE_INTERVALS: the 5 fixed lookback windows. -/
def candleIntervals : List (String × ℚ) :=
  [("15s", 15000), ("30s", 30000), ("1m", 60000), ("2m", 120000), ("5m", 300000)]

/- MOMENTUM_CONFIG: per-window minimum-gain thresholds (env defaults). -/
structure MomentumThresholds where
  th15s : ℚ := 10
  th30s : ℚ := 20
  th1m : ℚ := 30
  th2m : ℚ := 50
  th5m : ℚ := 100
deriving DecidableEq

/- `MOMENTUM_CONFIG[interval] || 0` -/
def momentumThreshold (cfg : MomentumThresholds) (interval : String) : ℚ :=
  if interval = "15s" then cfg.th15s
  else if interval = "30s" then cfg.th30s
  else if interval = "1m" then cfg.th1m
  else if interval = "2m" then cfg.th2m
  else if interval = "5m" then cfg.th5m
  else 0

/- A price sample (price, timestamp). -/

/- recordPrice (candleAnalyzer.js 49-80), in-memory history: guard
   against non-positive price, append, prune to the last 10 minutes.
   The redis mirror of the history is not modelled. -/
def recordPrice (history : List (ℚ × ℚ)) (price now : ℚ) : List (ℚ × ℚ) :=
  if price ≤ 0 then history
  else (history ++ [(price, now)]).filter (fun s => s.2 ≥ now - 600000)

/- calculateGain (candleAnalyzer.js 113-145), reduced to the
   gainPercent field (the only one its callers test). -/
def calculateGain (history : List (ℚ × ℚ)) (now intervalMs : ℚ) : Option ℚ :=
  if history.length < 2 then none
  else
    let oldPrices := history.filter (fun s => s.2 ≥ now - intervalMs)
    if oldPrices.length < 2 then none
    else
      let oldestPrice := (oldPrices.headD (0, 0)).1
      let newestPrice := (oldPrices.getLastD (0, 0)).1
      if oldestPrice ≤ 0 then none
      else some ((newestPrice - oldestPrice) / oldestPrice * 100)

/- Per-window `hasMomentum` flag of analyzeMomentum (151-193): a window
   with no data reports no momentum; otherwise gain% ≥ threshold. -/
def windowHasMomentum (cfg : MomentumThresholds) (history : List (ℚ × ℚ))
    (now : ℚ) (interval : String × ℚ) : Bool :=
  match calculateGain history now interval.2 with
  | none => false
  | some g => decide (g ≥ momentumThreshold cfg interval.1)

/- Number of windows simultaneously showing momentum. -/
def momentumCount (cfg : MomentumThresholds) (history : List (ℚ × ℚ))
    (now : ℚ) : ℕ :=
  (candleIntervals.filter (fun iv => windowHasMomentum cfg history now iv)).length

/- Aggregate `hasMomentum` of analyzeMomentum: any window fired. -/
def hasMomentumAgg (cfg : MomentumThresholds) (history : List (ℚ × ℚ))
    (now : ℚ) : Bool :=
  candleIntervals.any (fun iv => windowHasMomentum cfg history now iv)

structure SnipeDecision where
  snipe : Bool
  reason : String
deriving DecidableEq

/- CandleAnalyzer.shouldSnipe (230-266) composed with updateAndAnalyze
   (198-225): `fetchedPrice` is the result of the price fetch (none on
   failure); on success the price is recorded and momentum analyzed. -/
def shouldSnipe (cfg : MomentumThresholds) (history : List (ℚ × ℚ))
    (fetchedPrice : Option ℚ) (now : ℚ) : SnipeDecision :=
  match fetchedPrice with
  | none => ⟨false, "no_price_data"⟩
  | some price =>
    if price ≤ 0 then ⟨false, "no_price_data"⟩
    else
      let h := recordPrice history price now
      if hasMomentumAgg cfg h now = false then ⟨false, "no_momentum"⟩
      else if momentumCount cfg h now < 2 then
        ⟨false, "insufficient_momentum_intervals"⟩
      else ⟨true, "strong_momentum"⟩

/- ── Price anomaly guard (priceService.js 334-359) ── -/

def MAX_PRICE_MULTIPLIER : ℚ := 100
def MIN_PRICE_DIVIDER : ℚ := 100

/- PriceService._isPriceReasonable.  `Number.isFinite` holds for every
   rational, so only the sign/ratio checks remain. -/
def isPriceReasonable (price vSolReserves vTokenReserves : ℚ) : Bool :=
  if price ≤ 0 then false
  else if vSolReserves ≤ 0 ∨ vTokenReserves ≤ 0 then false
  else
    let basePrice := vSolReserves / vTokenReserves
    if basePrice ≤ 0 then false
    else if price > basePrice * MAX_PRICE_MULTIPLIER then false
    else if price < basePrice / MIN_PRICE_DIVIDER then false
    else true

/- ── copyMonitor max-price update and executeSell ── -/

/- Method names defined on the PositionManager class body
   (riskManager.js 206-425). -/
def positionManagerMethods : List String :=
  ["openPosition", "updatePosition", "closePosition", "getPosition",
   "getOpenPositions", "_normalizePosition"]

/- copyMonitor.js 477-480: when the fresh price exceeds the stored
   maxPrice the monitor invokes positionManager.updateMaxPrice.
   JavaScript method dispatch on a missing property throws; the model
   returns `ok b` (b = whether an update was attempted) or the thrown
   TypeError. -/
def monitorMaxPriceUpdate (currentPrice maxPrice : ℚ) : Except String Bool :=
  if currentPrice > maxPrice then
    if "updateMaxPrice" ∈ positionManagerMethods then .ok true
    else .error "TypeError: positionManager.updateMaxPrice is not a function"
  else .ok false

/- analytics.js 781-787 (the sniper monitor) performs the guarded
   high-water-mark update through PositionManager.updatePosition (which
   does exist): the stored maxPrice after the tick. -/
def sniperMonitorNewMaxPrice (maxPrice currentPrice : ℚ) : ℚ :=
  if currentPrice > maxPrice then currentPrice else maxPrice

/- Result of tradeExecutor.sellToken as executeSell consumes it. -/
structure SellResult where
  success : Bool
  solReceived : ℚ := 0
  signature : String := ""
  errMsg : String := ""
deriving DecidableEq

/- executeSell (copyMonitor.js 561-640): the store transition and
   whether closePosition was invoked.  A throwing sell call lands in
   the catch (state untouched); success:false only logs.  On success
   closePosition is called — with positional arguments, so the
   riskManager closeInfo parameter receives a number whose properties
   are all undefined (modelled as the all-default CloseInfo).  Telegram
   notification and the wallet_sold cache cleanup are not modelled. -/
def executeSellStep (state : StoreState) (mint : String)
    (sellOutcome : Except String SellResult) (now : ℚ) : StoreState × Bool :=
  match sellOutcome with
  | .error _ => (state, false)
  | .ok r =>
    if r.success = true then
      match closePosition state mint {} now with
      | .ok (s1, _) => (s1, true)
      | .error _ => (state, true)
    else (state, false)

/- ── Shared helper lemmas ── -/

lemma mem_saddList (l : List String) (m : String) : m ∈ saddList l m := by
  unfold saddList
  split
  · assumption
  · simp

/- ── Claims ── -/

/-- C1 counterexample: on the sample store with one open position on
mint "A", closePosition returns a non-null trade record on the first
call AND AGAIN on the second call (the hash persists with
status=closed, so the second close recomputes, rewrites and re-journals
instead of returning null), refuting "non-null exactly once and null on
every later call". -/
theorem closePosition_second_call_not_null :
    (closeResultTrade (closePosition sampleState "A" sampleCloseInfo 2000)).isSome = true ∧
    (closeResultTrade
      (closePosition
        (closeResultState (closePosition sampleState "A" sampleCloseInfo 2000) sampleState)
        "A" sampleCloseInfo 3000)).isSome = true ∧
    (closeResultState
        (closePosition
          (closeResultState (closePosition sampleState "A" sampleCloseInfo 2000) sampleState)
          "A" sampleCloseInfo 3000)
        sampleState).journal.length = 2 := by
  refine ⟨?_, ?_, ?_⟩ <;>
    simp +decide [closePosition, sampleState, sampleRecordA, sampleCloseInfo,
      closeResultTrade, closeResultState, orElseStr, Option.orElse]

/-- C1 (amended): closePosition never raises for a nonempty mint; it
returns null exactly when no record (open or closed) is stored for the
asset, and leaves the state unchanged in that case.  It is NOT
idempotent: whenever a record is stored, close succeeds with a non-null
trade record, and a second close on the same asset again returns a
non-null record (the closed hash persists), so only mints with no
stored hash at all yield null. -/
theorem closePosition_null_iff_no_record (state : StoreState) (mint : String)
    (info info2 : CloseInfo) (now now2 : ℚ) (hm : mint ≠ "") :
    (state.positions mint = none →
      closePosition state mint info now = .ok (state, none)) ∧
    (∀ raw, state.positions mint = some raw →
      ∃ s1 t1, closePosition state mint info now = .ok (s1, some t1) ∧
        ∃ s2 t2, closePosition s1 mint info2 now2 = .ok (s2, some t2)) := by
  constructor
  · intro h
    unfold closePosition
    rw [if_neg hm, h]
  · intro raw h
    unfold closePosition
    rw [if_neg hm, h]
    refine ⟨_, _, rfl, ?_⟩
    rw [if_neg hm]
    simp only [if_pos rfl]
    exact ⟨_, _, rfl⟩

/-- C1 witness for the amended theorem, at the sample store. -/
theorem closePosition_null_iff_no_record_witness :
    ∃ s1 t1, closePosition sampleState "A" sampleCloseInfo 2000 = .ok (s1, some t1) ∧
      ∃ s2 t2, closePosition s1 "A" sampleCloseInfo 3000 = .ok (s2, some t2) :=
  (closePosition_null_iff_no_record sampleState "A" sampleCloseInfo sampleCloseInfo
      2000 3000 (by decide)).2 sampleRecordA (by simp [sampleState])

/-- C2 counterexample: mint "A" is already in the open-position index of
the sample store, yet openPosition with the same mint succeeds (no
rejection) and overwrites the stored record (entryPrice becomes the new
input's 2, replacing the stored 1), refuting "fails/rejects the insert
instead of writing". -/
theorem openPosition_duplicate_overwrites :
    openResultOk
      (openPosition sampleState
        { mint := "A", entryPrice := 2, solAmount := 1/10, tokensAmount := 500 } 5000)
      = true ∧
    ((openResultState
        (openPosition sampleState
          { mint := "A", entryPrice := 2, solAmount := 1/10, tokensAmount := 500 } 5000)
        sampleState).positions "A").map (·.entryPrice) = some 2 := by
  refine ⟨?_, ?_⟩ <;>
    simp +decide [openPosition, sampleState, sampleRecordA, openResultOk,
      openResultState, saddList]

/-- C2 (amended): openPosition performs no duplicate check at all: for
every store state and every input with a nonempty mint — including one
whose asset is already present in the open-position index — it succeeds,
writes the record (status open, entryPrice and maxPrice from the input,
overwriting any previous record's entry fields) and adds the mint to the
index.  Duplicate prevention is enforced by callers
(RiskManager.shouldEnterTrade, CopyStrategy.shouldCopy,
SniperStrategy.shouldSnipe), not by the store.  At most one stored
record per asset holds structurally, records being keyed by mint. -/
theorem openPosition_never_rejects (state : StoreState) (pos : PositionInput)
    (now : ℚ) (hm : pos.mint ≠ "") :
    ∃ s1 data, openPosition state pos now = .ok (s1, data) ∧
      s1.positions pos.mint = some data ∧
      data.status = "open" ∧
      data.entryPrice = pos.entryPrice ∧
      data.maxPrice = pos.entryPrice ∧
      pos.mint ∈ s1.openIndex := by
  unfold openPosition
  rw [if_neg hm]
  refine ⟨_, _, rfl, ?_, rfl, rfl, rfl, mem_saddList _ _⟩
  simp

/-- C2 witness for the amended theorem: re-opening the already-open
mint "A" of the sample store. -/
theorem openPosition_never_rejects_witness :
    ∃ s1 data,
      openPosition sampleState
        { mint := "A", entryPrice := 2, solAmount := 1/10, tokensAmount := 500 } 5000
        = .ok (s1, data) ∧
      s1.positions "A" = some data ∧
      data.status = "open" ∧
      data.entryPrice = 2 ∧
      data.maxPrice = 2 ∧
      "A" ∈ s1.openIndex :=
  openPosition_never_rejects sampleState
    { mint := "A", entryPrice := 2, solAmount := 1/10, tokensAmount := 500 } 5000
    (by decide)

/-- C6: for every close whose stored record has entryPrice > 0 and
tokenAmount > 0 and whose closeInfo carries a positive exit price, the
journaled trade satisfies exitSol = tokensAmount × exitPrice,
pnlSol = exitSol − solAmount and
pnlPercent = (exitPrice − entryPrice)/entryPrice × 100 — exactly, in ℚ. -/
theorem closePosition_pnl_reconciles (state : StoreState) (mint : String)
    (raw : PositionRecord) (info : CloseInfo) (now e : ℚ) (hm : mint ≠ "")
    (hraw : state.positions mint = some raw) (hentry : 0 < raw.entryPrice)
    (htok : 0 < raw.tokensAmount) (hexit : info.exitPrice = some e) (he : 0 < e) :
    ∃ s1 t, closePosition state mint info now = .ok (s1, some t) ∧
      t.exitPrice = e ∧
      t.exitSol = raw.tokensAmount * e ∧
      t.pnlSol = t.exitSol - raw.solAmount ∧
      t.pnlPercent = (e - raw.entryPrice) / raw.entryPrice * 100 := by
  unfold closePosition
  rw [if_neg hm, hraw, hexit]
  simp only [Option.orElse, Option.getD_some]
  rw [if_pos (And.intro htok he), if_pos hentry]
  exact ⟨_, _, rfl, rfl, rfl, rfl, rfl⟩

/-- C6 witness: closing the sample position (entry 1, 1000 tokens,
0.05 SOL committed) at exit price 2. -/
theorem closePosition_pnl_reconciles_witness :
    ∃ s1 t, closePosition sampleState "A" sampleCloseInfo 2000 = .ok (s1, some t) ∧
      t.exitPrice = 2 ∧
      t.exitSol = 1000 * 2 ∧
      t.pnlSol = t.exitSol - (5/100 : ℚ) ∧
      t.pnlPercent = (2 - 1) / 1 * 100 :=
  closePosition_pnl_reconciles sampleState "A" sampleRecordA sampleCloseInfo 2000 2
    (by decide) (by simp [sampleState]) (by norm_num [sampleRecordA])
    (by norm_num [sampleRecordA]) rfl (by norm_num)

/-- C4: both shouldExit variants evaluate their checks sequentially
with early return in the order take-profit, trailing-stop, stop-loss,
max-hold-time — for every valid position and price they equal the
spec-side first-match evaluation over that ordered check list, which by
construction produces exactly one reason — and whenever the take-profit
condition is met the decision is take_profit with priority 3, no matter
which later checks (trailing-stop, stop-loss, max-hold) also fire;
hence in particular any position meeting take-profit and stop-loss
simultaneously would exit as take_profit. -/
theorem shouldExit_checks_sequential (cfg : ExitConfig) (p : Position)
    (currentPrice now : ℚ) (hmint : p.mint ≠ "") (hpx : currentPrice ≠ 0)
    (hentry : 0 < p.entryPrice) :
    (resolvedStrategy p "copy" = "copy" →
      copyShouldExit cfg (some p) currentPrice now =
        specOrderedExit cfg p currentPrice now) ∧
    (resolvedStrategy p "sniper" = "sniper" →
      sniperShouldExit cfg (some p) currentPrice now =
        specOrderedExit cfg p currentPrice now) ∧
    (cfg.takeProfitEnabled = true ∧ cfg.takeProfitPercent > 0 ∧
        pnlPercentOf p.entryPrice currentPrice ≥ cfg.takeProfitPercent →
      (resolvedStrategy p "copy" = "copy" →
        copyShouldExit cfg (some p) currentPrice now = ⟨true, "take_profit", 3⟩) ∧
      (resolvedStrategy p "sniper" = "sniper" →
        sniperShouldExit cfg (some p) currentPrice now = ⟨true, "take_profit", 3⟩)) := by
  have hguard : ¬(p.mint = "" ∨ currentPrice = 0) := by
    push_neg
    exact ⟨hmint, hpx⟩
  have hee : ¬(p.entryPrice ≤ 0) := not_le.mpr hentry
  refine ⟨fun hs => ?_, fun hs => ?_, fun htp => ⟨fun hs => ?_, fun hs => ?_⟩⟩
  · simp only [copyShouldExit, specOrderedExit, specCheckTakeProfit,
      specCheckTrailingStop, specCheckStopLoss, specCheckMaxHold]
    rw [if_neg hguard, if_neg (not_not_intro hs), if_neg hee]
    split_ifs <;> simp [List.findSome?]
  · simp only [sniperShouldExit, specOrderedExit, specCheckTakeProfit,
      specCheckTrailingStop, specCheckStopLoss, specCheckMaxHold]
    rw [if_neg hguard, if_neg (not_not_intro hs), if_neg hee]
    split_ifs <;> simp [List.findSome?]
  · simp only [copyShouldExit]
    rw [if_neg hguard, if_neg (not_not_intro hs), if_neg hee, if_pos htp]
  · simp only [sniperShouldExit]
    rw [if_neg hguard, if_neg (not_not_intro hs), if_neg hee, if_pos htp]

/-- C4 witness: the spec's own scenario — entry 0.00001, price 0.000025
(+150%) with take-profit threshold 150 — meets take-profit together with
the max-hold check, and both variants decide take_profit; the decision
also equals the spec-side ordered evaluation. -/
theorem shouldExit_checks_sequential_witness :
    copyShouldExit
        { takeProfitPercent := 150, maxHoldMinutes := 60 }
        (some { mint := "X", entryPrice := 1/100000, entryTime := 1 })
        (25/1000000) 7200001 =
      ⟨true, "take_profit", 3⟩ ∧
    copyShouldExit
        { takeProfitPercent := 150, maxHoldMinutes := 60 }
        (some { mint := "X", entryPrice := 1/100000, entryTime := 1 })
        (25/1000000) 7200001 =
      specOrderedExit
        { takeProfitPercent := 150, maxHoldMinutes := 60 }
        { mint := "X", entryPrice := 1/100000, entryTime := 1 }
        (25/1000000) 7200001 := by
  have h := shouldExit_checks_sequential
    { takeProfitPercent := 150, maxHoldMinutes := 60 }
    { mint := "X", entryPrice := 1/100000, entryTime := 1 }
    (25/1000000) 7200001 (by decide) (by norm_num) (by norm_num)
  exact ⟨(h.2.2 (by norm_num [pnlPercentOf])).1 rfl, h.1 rfl⟩

/-- C5: the trailing-stop check measures drawdown from the running
high-water mark, not from entry: a position entered at 1.0 with
maxPrice 3.0, current price 2.5, trailing-stop enabled at 15% (and
take-profit not firing at +150%) exits with reason trailing_stop in
both strategy variants even though its PnL versus entry is +150%. -/
theorem trailing_stop_uses_peak_not_entry (cfg : ExitConfig) (now : ℚ)
    (hen : cfg.trailingStopEnabled = true) (hth : cfg.trailingStopPercent = 15)
    (htp : ¬(cfg.takeProfitEnabled = true ∧ cfg.takeProfitPercent > 0 ∧
      (150 : ℚ) ≥ cfg.takeProfitPercent)) :
    copyShouldExit cfg
        (some { mint := "A", entryPrice := 1, entryTime := 1000, maxPrice := some 3 })
        (5/2) now = ⟨true, "trailing_stop", 3⟩ ∧
    sniperShouldExit cfg
        (some { mint := "A", entryPrice := 1, entryTime := 1000, maxPrice := some 3 })
        (5/2) now = ⟨true, "trailing_stop", 3⟩ ∧
    pnlPercentOf 1 (5/2) = 150 := by
  have hpnl : pnlPercentOf 1 (5/2) = 150 := by norm_num [pnlPercentOf]
  have hdd : drawdownPercentOf ((some (3:ℚ)).getD 1) (5/2) ≤ -(15:ℚ) := by
    norm_num [drawdownPercentOf]
  have hsc : resolvedStrategy
      { mint := "A", entryPrice := 1, entryTime := 1000, maxPrice := some 3 }
      "copy" = "copy" := by decide
  have hss : resolvedStrategy
      { mint := "A", entryPrice := 1, entryTime := 1000, maxPrice := some 3 }
      "sniper" = "sniper" := by decide
  have hguard : ¬(("A" : String) = "" ∨ (5/2 : ℚ) = 0) := by
    push_neg
    exact ⟨by decide, by norm_num⟩
  refine ⟨?_, ?_, hpnl⟩
  · simp only [copyShouldExit]
    rw [if_neg hguard, if_neg (not_not_intro hsc), if_neg (by norm_num)]
    rw [hpnl, if_neg htp, if_pos ⟨hen, by rw [hth]; norm_num, by rw [hth]; exact hdd⟩]
  · simp only [sniperShouldExit]
    rw [if_neg hguard, if_neg (not_not_intro hss), if_neg (by norm_num)]
    rw [hpnl, if_neg htp, if_pos ⟨hen, by rw [hth]; norm_num, by rw [hth]; exact hdd⟩]

/-- C5 witness: concrete configuration (take-profit enabled at the copy
default +200%, trailing-stop at 15%). -/
theorem trailing_stop_uses_peak_not_entry_witness :
    copyShouldExit { trailingStopPercent := 15 }
        (some { mint := "A", entryPrice := 1, entryTime := 1000, maxPrice := some 3 })
        (5/2) 2000 = ⟨true, "trailing_stop", 3⟩ ∧
    pnlPercentOf 1 (5/2) = 150 :=
  ⟨(trailing_stop_uses_peak_not_entry { trailingStopPercent := 15 } 2000 rfl rfl
      (by norm_num)).1,
   (trailing_stop_uses_peak_not_entry { trailingStopPercent := 15 } 2000 rfl rfl
      (by norm_num)).2.2⟩

lemma any_eq_true_iff_filter_pos {α : Type} (l : List α) (p : α → Bool) :
    l.any p = true ↔ 0 < (l.filter p).length := by
  rw [List.any_eq_true, List.length_pos]
  constructor
  · rintro ⟨a, ha, hpa⟩ hnil
    rw [List.filter_eq_nil_iff] at hnil
    exact absurd hpa (by simpa using hnil a ha)
  · intro hne
    rcases List.exists_mem_of_ne_nil _ hne with ⟨a, ha⟩
    rcases List.mem_filter.mp ha with ⟨h1, h2⟩
    exact ⟨a, h1, h2⟩

/-- C7: after a successful price fetch is recorded, shouldSnipe accepts
exactly when at least 2 of the 5 fixed lookback windows (15s, 30s, 1m,
2m, 5m) simultaneously show momentum; in particular, samples yielding
exactly one window at or above its threshold give snipe:false with
reason insufficient_momentum_intervals. -/
theorem shouldSnipe_requires_two_windows (cfg : MomentumThresholds)
    (history : List (ℚ × ℚ)) (price now : ℚ) (hp : 0 < price) :
    (momentumCount cfg (recordPrice history price now) now = 1 →
      shouldSnipe cfg history (some price) now =
        ⟨false, "insufficient_momentum_intervals"⟩) ∧
    ((shouldSnipe cfg history (some price) now).snipe = true ↔
      2 ≤ momentumCount cfg (recordPrice history price now) now) := by
  have hnp : ¬(price ≤ 0) := not_le.mpr hp
  have hagg : hasMomentumAgg cfg (recordPrice history price now) now = true ↔
      0 < momentumCount cfg (recordPrice history price now) now := by
    unfold hasMomentumAgg momentumCount
    exact any_eq_true_iff_filter_pos _ _
  simp only [shouldSnipe]
  rw [if_neg hnp]
  constructor
  · intro h1
    rw [if_neg (by rw [Bool.not_eq_false]; exact hagg.mpr (by omega)),
      if_pos (by omega)]
  · rcases Nat.lt_or_ge (momentumCount cfg (recordPrice history price now) now) 1
      with hc | hc
    · have h0 : momentumCount cfg (recordPrice history price now) now = 0 := by omega
      rw [if_pos (by
        rw [Bool.eq_false_iff]
        intro ht
        exact absurd (hagg.mp ht) (by omega))]
      simp
      omega
    · rw [if_neg (by rw [Bool.not_eq_false]; exact hagg.mpr (by omega))]
      rcases Nat.lt_or_ge (momentumCount cfg (recordPrice history price now) now) 2
        with hc2 | hc2
      · rw [if_pos hc2]
        simp
        omega
      · rw [if_neg (by omega)]
        simp
        omega

/-- C7 witness: one sample 50s old at price 1 plus the fresh fetch at
1.4 gives a +40% gain that qualifies only the 1-minute window (40 ≥ 30
but 40 < 50, < 100, and the 15s/30s windows hold a single sample), so
exactly one window has momentum and shouldSnipe reports
insufficient_momentum_intervals. -/
theorem shouldSnipe_requires_two_windows_witness :
    shouldSnipe {} [((1 : ℚ), (950000 : ℚ))] (some (7/5)) 1000000 =
      ⟨false, "insufficient_momentum_intervals"⟩ := by
  apply (shouldSnipe_requires_two_windows {} [((1 : ℚ), (950000 : ℚ))] (7/5) 1000000
    (by norm_num)).1
  norm_num [momentumCount, recordPrice, candleIntervals, windowHasMomentum,
    calculateGain, momentumThreshold, List.filter]
  simp +decide

/-- C8: for positive curve reserves with baseline reserve-ratio price
R = vSol/vTok, the anomaly guard accepts a quote p exactly when p is
positive (finiteness is automatic in ℚ) and R/100 ≤ p ≤ R×100; a quote
of 150×R is flagged anomalous and a quote of 50×R is not. -/
theorem isPriceReasonable_iff_within_100x (vSol vTok : ℚ)
    (hs : 0 < vSol) (ht : 0 < vTok) :
    (∀ p : ℚ, isPriceReasonable p vSol vTok = true ↔
      (0 < p ∧ vSol / vTok / 100 ≤ p ∧ p ≤ vSol / vTok * 100)) ∧
    isPriceReasonable (vSol / vTok * 150) vSol vTok = false ∧
    isPriceReasonable (vSol / vTok * 50) vSol vTok = true := by
  have hb : 0 < vSol / vTok := div_pos hs ht
  have hguard : ¬(vSol ≤ 0 ∨ vTok ≤ 0) := by
    push_neg
    exact ⟨hs, ht⟩
  have hbn : ¬(vSol / vTok ≤ 0) := not_le.mpr hb
  refine ⟨fun p => ?_, ?_, ?_⟩
  · simp only [isPriceReasonable, MAX_PRICE_MULTIPLIER, MIN_PRICE_DIVIDER]
    by_cases hp : p ≤ 0
    · rw [if_pos hp]
      simp only [Bool.false_eq_true, false_iff]
      rintro ⟨h0, -, -⟩
      exact absurd h0 (not_lt.mpr hp)
    · rw [if_neg hp, if_neg hguard, if_neg hbn]
      split_ifs with h1 h2
      · simp only [Bool.false_eq_true, false_iff]
        rintro ⟨-, -, h3⟩
        exact absurd h1 (not_lt.mpr h3)
      · simp only [Bool.false_eq_true, false_iff]
        rintro ⟨-, h3, -⟩
        exact absurd h2 (not_lt.mpr h3)
      · simp only [true_iff]
        exact ⟨lt_of_not_le hp, not_lt.mp h2, not_lt.mp h1⟩
  · simp only [isPriceReasonable, MAX_PRICE_MULTIPLIER, MIN_PRICE_DIVIDER]
    rw [if_neg (not_le.mpr (by nlinarith)), if_neg hguard, if_neg hbn,
      if_pos (by nlinarith)]
  · simp only [isPriceReasonable, MAX_PRICE_MULTIPLIER, MIN_PRICE_DIVIDER]
    rw [if_neg (not_le.mpr (by nlinarith)), if_neg hguard, if_neg hbn,
      if_neg (by rw [not_lt]; nlinarith), if_neg (by rw [not_lt]; nlinarith)]

/-- C8 witness: reserves 2 SOL / 1 token, baseline R = 2. -/
theorem isPriceReasonable_iff_within_100x_witness :
    isPriceReasonable ((2 : ℚ) / 1 * 150) 2 1 = false ∧
    isPriceReasonable ((2 : ℚ) / 1 * 50) 2 1 = true :=
  ⟨(isPriceReasonable_iff_within_100x 2 1 (by norm_num) (by norm_num)).2.1,
   (isPriceReasonable_iff_within_100x 2 1 (by norm_num) (by norm_num)).2.2⟩

/-- C9: when the sell call of executeSell fails — the executor throws,
or returns success:false — closePosition is never invoked and the store
state (record, open-index membership, journal) is returned unchanged,
so the position stays open for re-evaluation on a later tick. -/
theorem failed_sell_leaves_position_open (state : StoreState) (mint : String)
    (now : ℚ) :
    (∀ e : String, executeSellStep state mint (.error e) now = (state, false)) ∧
    (∀ r : SellResult, r.success = false →
      executeSellStep state mint (.ok r) now = (state, false)) := by
  refine ⟨fun e => rfl, fun r hr => ?_⟩
  simp only [executeSellStep]
  rw [hr]
  simp

/-- C9 witness: a failed sell on the sample store. -/
theorem failed_sell_leaves_position_open_witness :
    executeSellStep sampleState "A" (.ok { success := false }) 5 =
      (sampleState, false) :=
  (failed_sell_leaves_position_open sampleState "A" 5).2 { success := false } rfl

/-- C10: the phased wallet-exit override, with a sell by the tracked
wallet detected at or after entry: hold < 3min exits as
wallet_exit_early with priority 2 for every PnL value; 3min ≤ hold <
10min exits (wallet_exit_loss_protection, priority 2) exactly when the
position is at a loss and holds when profitable; hold ≥ 10min ignores
the wallet-exit signal.  Moreover the orchestrator consults the hybrid
override before the generic ExitPolicy: absent a force-exit flag, a
firing hybrid decision supplies the sell reason whatever the generic
policy says. -/
theorem hybrid_phased_wallet_exit (entryTime pnlPercent now : ℚ)
    (ws : WalletSellCheck) (hsold : ws.sold = true)
    (hafter : entryTime ≤ ws.timestamp) :
    ((now - entryTime < 180000 →
      evaluateHybridExit entryTime ws pnlPercent now =
        ⟨true, "phase1", "wallet_exit_early", 2⟩) ∧
     (180000 ≤ now - entryTime → now - entryTime < 600000 →
      (pnlPercent < 0 →
        evaluateHybridExit entryTime ws pnlPercent now =
          ⟨true, "phase2", "wallet_exit_loss_protection", 2⟩) ∧
      (0 ≤ pnlPercent →
        evaluateHybridExit entryTime ws pnlPercent now =
          ⟨false, "phase2_holding", "", 0⟩)) ∧
     (600000 ≤ now - entryTime →
      evaluateHybridExit entryTime ws pnlPercent now =
        ⟨false, "phase3_independent", "", 0⟩)) ∧
    (∀ (hybrid : HybridDecision) (generic : ExitDecision),
      hybrid.shouldExit = true →
        monitorExitReason none hybrid generic = some hybrid.reason) := by
  have hws : ¬(ws.sold = false) := by
    rw [hsold]
    simp
  have hsell : ¬(ws.timestamp < entryTime) := not_lt.mpr hafter
  refine ⟨⟨fun h1 => ?_, fun h2a h2b => ⟨fun hneg => ?_, fun hpos => ?_⟩,
    fun h3 => ?_⟩, fun hybrid generic hx => ?_⟩
  · simp only [evaluateHybridExit, WALLET_EXIT_WINDOW]
    rw [if_neg hws, if_neg hsell, if_pos h1]
  · simp only [evaluateHybridExit, WALLET_EXIT_WINDOW, LOSS_PROTECTION_WINDOW]
    rw [if_neg hws, if_neg hsell, if_neg (not_lt.mpr h2a), if_pos ⟨h2a, h2b⟩,
      if_pos hneg]
  · simp only [evaluateHybridExit, WALLET_EXIT_WINDOW, LOSS_PROTECTION_WINDOW]
    rw [if_neg hws, if_neg hsell, if_neg (not_lt.mpr h2a), if_pos ⟨h2a, h2b⟩,
      if_neg (not_lt.mpr hpos)]
  · simp only [evaluateHybridExit, WALLET_EXIT_WINDOW, LOSS_PROTECTION_WINDOW,
      INDEPENDENT_MODE_TIME]
    rw [if_neg hws, if_neg hsell, if_neg (by linarith),
      if_neg (by rintro ⟨-, hlt⟩; linarith), if_pos h3]
  · simp only [monitorExitReason]
    rw [hx]
    simp

/-- C10 witness: the spec scenario — entry at t=0, tracked wallet sells
20s after entry, evaluated at t=90s (hold 90s < 3min) with PnL +42% —
exits as wallet_exit_early, priority 2. -/
theorem hybrid_phased_wallet_exit_witness :
    evaluateHybridExit 0 { sold := true, timestamp := 20000 } 42 90000 =
      ⟨true, "phase1", "wallet_exit_early", 2⟩ :=
  (hybrid_phased_wallet_exit 0 42 90000 { sold := true, timestamp := 20000 }
      rfl (by norm_num)).1.1 (by norm_num)

/-- C3 (supporting theorem for the code bug): openPosition does
initialize maxPrice to entryPrice, and the guarded update the sniper
monitor performs (analytics.js, via the existing updatePosition method)
is monotone and preserves maxPrice ≥ entryPrice; but in the copy
monitor — the cited code — every tick whose fresh price exceeds the
stored maxPrice throws, because copyMonitor invokes
positionManager.updateMaxPrice and no such method exists on
PositionManager, so a copy position's high-water mark is never advanced
after open. -/
theorem maxprice_update_method_missing (currentPrice maxPrice : ℚ)
    (h : maxPrice < currentPrice) :
    monitorMaxPriceUpdate currentPrice maxPrice =
      .error "TypeError: positionManager.updateMaxPrice is not a function" ∧
    (∀ (state : StoreState) (pos : PositionInput) (now : ℚ), pos.mint ≠ "" →
      ∃ s1 data, openPosition state pos now = .ok (s1, data) ∧
        data.maxPrice = pos.entryPrice) ∧
    (∀ mp c : ℚ, mp ≤ sniperMonitorNewMaxPrice mp c) ∧
    (∀ entry mp c : ℚ, entry ≤ mp → entry ≤ sniperMonitorNewMaxPrice mp c) := by
  refine ⟨?_, ?_, ?_, ?_⟩
  · simp only [monitorMaxPriceUpdate]
    rw [if_pos h, if_neg (by decide)]
  · intro state pos now hm
    unfold openPosition
    rw [if_neg hm]
    exact ⟨_, _, rfl, rfl⟩
  · intro mp c
    unfold sniperMonitorNewMaxPrice
    split_ifs with hc
    · exact le_of_lt hc
    · exact le_rfl
  · intro entry mp c he
    unfold sniperMonitorNewMaxPrice
    split_ifs with hc
    · exact le_trans he (le_of_lt hc)
    · exact he

/-- C3 witness: a position opened at entry 1 whose price ticks to 2. -/
theorem maxprice_update_method_missing_witness :
    monitorMaxPriceUpdate 2 1 =
      .error "TypeError: positionManager.updateMaxPrice is not a function" :=
  (maxprice_update_method_missing 2 1 (by norm_num)).1

end HopeLBot
